import Mathlib

/-!
Verification of the frame-provider buffer manager of the object-detection
example (app/imgprovider.c) and its resolution-negotiation helper.

Modelling conventions:
* `VdoBuffer*` handles are natural numbers.
* A `GQueue` is a `List` whose head is the queue head: `g_queue_pop_head`
  removes the list head, `g_queue_push_tail` appends at the end and
  `g_queue_pop_tail` removes the last element.
* C `unsigned int` values are `Nat`s; the one place where overflow can
  occur (`res->width * res->height`) reduces the product modulo `2 ^ 32`.
-/

namespace ImgProvider

/-- C `UINT_MAX` for a 32-bit `unsigned int`. -/
def UINT_MAX : Nat := 2 ^ 32 - 1

/-- A `VdoResolution` (vdo-types.h): a width/height pair. -/
structure VdoResolution where
  width : Nat
  height : Nat
deriving DecidableEq

/-- The expression `res->width * res->height` evaluated in C `unsigned int`
arithmetic (modulo `2 ^ 32`). -/
def resArea (r : VdoResolution) : Nat := r.width * r.height % 2 ^ 32

/-- The guard `(res->width >= reqWidth) && (res->height >= reqHeight)` of the
selection loop in `chooseStreamResolution`. -/
def fitsRequest (reqWidth reqHeight : Nat) (r : VdoResolution) : Bool :=
  decide (reqWidth ≤ r.width) && decide (reqHeight ≤ r.height)

/-- The selection loop of `chooseStreamResolution` (imgprovider.c:249-258):
scan the resolution list keeping the fitting resolution with strictly
smallest area seen so far.  The C code stores `bestResolutionIdx` and later
re-reads `set->resolutions[bestResolutionIdx]`; since the list is unchanged,
the model stores the best element itself next to `bestResolutionArea`
(`none` corresponds to `bestResolutionIdx == -1`). -/
def bestLoop (reqWidth reqHeight : Nat) :
    List VdoResolution → Option VdoResolution → Nat → Option VdoResolution
  | [], best, _ => best
  | r :: rest, best, bestResolutionArea =>
    if fitsRequest reqWidth reqHeight r then
      if resArea r < bestResolutionArea then
        bestLoop reqWidth reqHeight rest (some r) (resArea r)
      else
        bestLoop reqWidth reqHeight rest best bestResolutionArea
    else
      bestLoop reqWidth reqHeight rest best bestResolutionArea

/-- Result of `chooseStreamResolution`: the returned `bool` and the final
contents of `*chosenWidth` and `*chosenHeight`. -/
structure ChooseResult where
  ret : Bool
  chosenWidth : Nat
  chosenHeight : Nat
deriving DecidableEq

/-- The function `chooseStreamResolution` (imgprovider.c:221-284).
`query = none` models failure of `vdo_channel_get` or
`vdo_channel_get_resolutions` (`goto end` with `ret = false`, the output
pointers untouched); `some resolutions` is the fetched resolution set.
`initW`/`initH` are the values behind the output pointers on entry, since
the C function writes through pointers and leaves them unchanged on some
paths.  The source executes `*chosenWidth = reqWidth; *chosenWidth =
reqHeight;` (imgprovider.c:263-264, the second store overwriting the first,
`*chosenHeight` never assigned on the fallback path) and then overwrites
both pointers when `bestResolutionIdx >= 0`; the model reproduces the final
pointer contents of each path faithfully. -/
def chooseStreamResolution (reqWidth reqHeight : Nat)
    (query : Option (List VdoResolution)) (initW initH : Nat) : ChooseResult :=
  match query with
  | none => { ret := false, chosenWidth := initW, chosenHeight := initH }
  | some resolutions =>
    match bestLoop reqWidth reqHeight resolutions none UINT_MAX with
    | some best =>
      { ret := true, chosenWidth := best.width, chosenHeight := best.height }
    | none =>
      { ret := true, chosenWidth := reqHeight, chosenHeight := initH }

/-- The two `GQueue`s of `ImgProvider_t` guarded by `frameMutex`. -/
structure ProviderQueues where
  deliveredFrames : List Nat
  processedFrames : List Nat
deriving DecidableEq

/-- Result of one locked section of `threadEntry`: the updated queues and
the buffer handed to `vdo_stream_buffer_enqueue`, if any. -/
structure FetchResult where
  queues : ProviderQueues
  recycled : Option Nat
deriving DecidableEq

/-- The critical section of one `threadEntry` iteration
(imgprovider.c:400-430) after `vdo_stream_get_buffer` returned `newBuffer`:
push `newBuffer` on the tail of `deliveredFrames`; then pick `oldBuffer` as
the head of `processedFrames` if that queue is non-empty, else the head of
`deliveredFrames` if its length now exceeds `numAppFrames`, else nothing. -/
def fetchIteration (numAppFrames : Nat) (st : ProviderQueues) (newBuffer : Nat) :
    FetchResult :=
  let delivered := st.deliveredFrames ++ [newBuffer]
  match st.processedFrames with
  | oldBuffer :: rest =>
    { queues := { deliveredFrames := delivered, processedFrames := rest },
      recycled := some oldBuffer }
  | [] =>
    if delivered.length > numAppFrames then
      { queues := { deliveredFrames := delivered.tail, processedFrames := [] },
        recycled := delivered.head? }
    else
      { queues := { deliveredFrames := delivered, processedFrames := [] },
        recycled := none }

/-- One outcome of `pthread_cond_wait` inside `getLastFrameBlocking`: either
the wait call fails, or the fetch loop ran one iteration (delivering
`newBuffer`) and signalled. -/
inductive WaitEvent where
  | waitFail
  | deliver (newBuffer : Nat)
deriving DecidableEq

/-- Result of a `getLastFrameBlocking` call: a buffer was returned together
with the final queues, or the call returned `NULL` (a failed wait) leaving
the queues as given, or the call is still blocked waiting. -/
inductive GetResult where
  | got (buf : Nat) (queues : ProviderQueues)
  | failed (queues : ProviderQueues)
  | blocked
deriving DecidableEq

/-- The function `getLastFrameBlocking` (imgprovider.c:355-374): while
`deliveredFrames` has length `< 1`, wait on the condition variable (a failed
wait jumps to `errorExit` and returns `NULL` with the queues untouched);
once non-empty, `g_queue_pop_tail(deliveredFrames)` is returned.  The list
of `WaitEvent`s drives the successive wait outcomes; if it runs out while
the queue is still empty the call is still `blocked`. -/
def getLastFrameBlocking (numAppFrames : Nat) :
    List WaitEvent → ProviderQueues → GetResult
  | events, st =>
    if st.deliveredFrames.length < 1 then
      match events with
      | [] => GetResult.blocked
      | WaitEvent.waitFail :: _ => GetResult.failed st
      | WaitEvent.deliver newBuffer :: rest =>
        getLastFrameBlocking numAppFrames rest
          (fetchIteration numAppFrames st newBuffer).queues
    else
      match st.deliveredFrames.getLast? with
      | some buf =>
        GetResult.got buf
          { st with deliveredFrames := st.deliveredFrames.dropLast }
      | none => GetResult.blocked

/-- The function `returnFrame` (imgprovider.c:376-382):
`g_queue_push_tail(processedFrames, buffer)`. -/
def returnFrame (st : ProviderQueues) (buffer : Nat) : ProviderQueues :=
  { st with processedFrames := st.processedFrames ++ [buffer] }

/-- Whole-system state: the backend's queue of enqueued buffers (head =
the next buffer `vdo_stream_get_buffer` hands out), the provider's two
queues, the buffers currently checked out to the consumer, the buffers
dropped from circulation by a failed recycle enqueue (popped from a queue
but never accepted back by the backend, imgprovider.c:420-428), and the
number of recycle (`vdo_stream_buffer_enqueue`) calls the fetch loop has
issued. -/
structure SysState where
  backend : List Nat
  queues : ProviderQueues
  checkedOut : List Nat
  leaked : List Nat
  enqueueCalls : Nat
deriving DecidableEq

/-- The three operations that move buffer handles between the conceptual
states: one fetch-loop iteration — whose recycle enqueue back to the
backend succeeds iff `enqueueOk` — a (non-blocking-case) consumer
`getLastFrameBlocking`, and a consumer `returnFrame`. -/
inductive Op where
  | fetch (enqueueOk : Bool)
  | getLast
  | ret (buffer : Nat)
deriving DecidableEq

/-- One system step.  `Op.fetch` with an empty backend models a failed
`vdo_stream_get_buffer` (the loop logs and continues, imgprovider.c:393-399);
otherwise the fetched head goes through `fetchIteration` and the recycled
buffer, if any, is handed to `vdo_stream_buffer_enqueue`: on success it
rejoins the backend queue, while on failure (imgprovider.c:420-428, logged
and not retried) the popped handle is in none of the queues, not checked
out and not with the backend — it is leaked from circulation.  `Op.getLast`
on an empty `deliveredFrames` would block, modelled as no state change yet;
otherwise the queue tail moves to the consumer.  `Op.ret b` appends a
checked-out buffer to `processedFrames` via `returnFrame`. -/
def SysState.step (numAppFrames : Nat) (st : SysState) : Op → SysState
  | Op.fetch enqueueOk =>
    match st.backend with
    | [] => st
    | newBuffer :: backendRest =>
      let r := fetchIteration numAppFrames st.queues newBuffer
      match r.recycled with
      | some oldBuffer =>
        if enqueueOk then
          { st with
            backend := backendRest ++ [oldBuffer], queues := r.queues,
            enqueueCalls := st.enqueueCalls + 1 }
        else
          { st with
            backend := backendRest, queues := r.queues,
            leaked := st.leaked ++ [oldBuffer],
            enqueueCalls := st.enqueueCalls + 1 }
      | none => { st with backend := backendRest, queues := r.queues }
  | Op.getLast =>
    match st.queues.deliveredFrames.getLast? with
    | none => st
    | some buf =>
      { st with
        queues := { st.queues with
          deliveredFrames := st.queues.deliveredFrames.dropLast },
        checkedOut := st.checkedOut ++ [buf] }
  | Op.ret buffer =>
    if buffer ∈ st.checkedOut then
      { st with
        checkedOut := st.checkedOut.erase buffer,
        queues := returnFrame st.queues buffer }
    else st

/-- Run a sequence of system operations. -/
def SysState.run (numAppFrames : Nat) (st : SysState) : List Op → SysState
  | [] => st
  | op :: ops => SysState.run numAppFrames (st.step numAppFrames op) ops

/-- State right after construction: `allocateVdoBuffers` has enqueued the
whole buffer pool to the backend, both provider queues empty, nothing
checked out, nothing leaked, no recycle calls issued yet. -/
def initState (pool : List Nat) : SysState :=
  { backend := pool, queues := { deliveredFrames := [], processedFrames := [] },
    checkedOut := [], leaked := [], enqueueCalls := 0 }

/-- Every buffer handle across the conceptual states with-backend,
delivered, processed and checked-out — the union the conservation claim
speaks about.  Handles leaked by a failed recycle enqueue are deliberately
NOT part of this union: they are in none of these states. -/
def SysState.allBufs (st : SysState) : List Nat :=
  st.backend ++ st.queues.deliveredFrames ++ st.queues.processedFrames ++
    st.checkedOut

/-- How `threadEntry`'s while loop exited: it observed
`provider->shutDown` true at the top of an iteration, or the modelled
schedule of flag reads ran out while the loop was still running. -/
inductive LoopExit where
  | shutdownObserved
  | outOfSchedule
deriving DecidableEq

/-- The while loop of `threadEntry` (imgprovider.c:388-431) driven by the
successive values the loop reads from `provider->shutDown` at the top of
each iteration.  Returns the final system state, the number of
`vdo_stream_get_buffer` calls issued, and how the loop exited: observing
`true` terminates the loop at once, before the blocking fetch call;
observing `false` performs one full fetch iteration (with a nominal,
successful recycle enqueue — the shutdown behaviour is independent of the
enqueue outcome). -/
def threadRun (numAppFrames : Nat) :
    List Bool → SysState → SysState × Nat × LoopExit
  | [], st => (st, 0, LoopExit.outOfSchedule)
  | shutDown :: rest, st =>
    if shutDown then (st, 0, LoopExit.shutdownObserved)
    else
      let r := threadRun numAppFrames rest (st.step numAppFrames (Op.fetch true))
      (r.1, r.2.1 + 1, r.2.2)

/-- `NUM_VDO_BUFFERS` (imgprovider.h:30). -/
def NUM_VDO_BUFFERS : Nat := 8

/-- Which construction step fails first, if any.  The three buffer cases
carry the index `i` of the `vdoBuffers[i]` iteration of
`allocateVdoBuffers` at which `vdo_stream_buffer_alloc`,
`vdo_buffer_get_data` or `vdo_stream_buffer_enqueue` fails. -/
inductive BuildFailure where
  | callocFail
  | mutexFail
  | condFail
  | deliveredQueueFail
  | processedQueueFail
  | vdoMapFail
  | streamNewFail
  | bufferAllocFail (i : Nat)
  | bufferMapFail (i : Nat)
  | bufferEnqueueFail (i : Nat)
  | streamStartFail
  | noFail
deriving DecidableEq

/-- The `for` loop of `allocateVdoBuffers` (imgprovider.c:186-211), with
`fuel` iterations left and `i` the current index: allocate `vdoBuffers[i]`,
memory-map it, enqueue it to the stream; any failure jumps to `errorExit`
and returns `false`.  Returns the `ret` value together with how many buffer
references were taken (and, per the declaration comment imgprovider.c:50,
are NOT released by this function on the error path). -/
def allocateVdoBuffers (fail : BuildFailure) : Nat → Nat → Bool × Nat
  | 0, _ => (true, NUM_VDO_BUFFERS)
  | fuel + 1, i =>
    if fail = BuildFailure.bufferAllocFail i then (false, i)
    else if fail = BuildFailure.bufferMapFail i then (false, i + 1)
    else if fail = BuildFailure.bufferEnqueueFail i then (false, i + 1)
    else allocateVdoBuffers fail fuel (i + 1)

/-- Resources held when `createStream` (imgprovider.c:286-340) returns:
its `ret` value, the number of live buffer references, whether the
`VdoStream` object is live, and whether `provider->vdoStream` was
assigned.  On `errorExit` the source calls `releaseVdoBuffers`, but that
function returns immediately while `provider->vdoStream` is `NULL`
(imgprovider.c:343-345), and the assignment `provider->vdoStream =
vdoStream` happens only after every step has succeeded (imgprovider.c:325),
so the error path never releases the references taken by
`allocateVdoBuffers` and never drops the stream object. -/
structure StreamResult where
  ret : Bool
  bufferRefsAlive : Nat
  streamAlive : Bool
  streamAssigned : Bool
deriving DecidableEq

/-- The function `createStream`, driven by the first failing step. -/
def createStream (fail : BuildFailure) : StreamResult :=
  if fail = BuildFailure.vdoMapFail then
    { ret := false, bufferRefsAlive := 0, streamAlive := false,
      streamAssigned := false }
  else if fail = BuildFailure.streamNewFail then
    { ret := false, bufferRefsAlive := 0, streamAlive := false,
      streamAssigned := false }
  else
    let alloc := allocateVdoBuffers fail NUM_VDO_BUFFERS 0
    if alloc.1 = false then
      { ret := false, bufferRefsAlive := alloc.2, streamAlive := true,
        streamAssigned := false }
    else if fail = BuildFailure.streamStartFail then
      { ret := false, bufferRefsAlive := alloc.2, streamAlive := true,
        streamAssigned := false }
    else
      { ret := true, bufferRefsAlive := alloc.2, streamAlive := true,
        streamAssigned := true }

/-- Resources held when `createImgProvider` returns: whether a (non-NULL)
provider was returned, whether the `errorExit` path dereferenced a `NULL`
`provider` pointer, and which partial state is still live. -/
structure BuildResult where
  providerReturned : Bool
  nullDeref : Bool
  mutexAlive : Bool
  condAlive : Bool
  queuesAlive : Nat
  providerAlive : Bool
  bufferRefsAlive : Nat
  streamAlive : Bool
deriving DecidableEq

/-- The function `createImgProvider` (imgprovider.c:95-160), driven by the
first failing step.  When `calloc` fails, `goto errorExit` runs with
`provider == NULL`; the flags skip the mutex/cond destruction, but
`if (provider->deliveredFrames)` (imgprovider.c:150) dereferences the
`NULL` pointer, recorded as `nullDeref`.  On every other failure the
`errorExit` path destroys the initialized mutex/condition variable, frees
the created queues and frees the provider; whatever `createStream` leaked
stays leaked. -/
def createImgProvider (fail : BuildFailure) : BuildResult :=
  if fail = BuildFailure.callocFail then
    { providerReturned := false, nullDeref := true, mutexAlive := false,
      condAlive := false, queuesAlive := 0, providerAlive := false,
      bufferRefsAlive := 0, streamAlive := false }
  else if fail = BuildFailure.mutexFail ∨ fail = BuildFailure.condFail ∨
      fail = BuildFailure.deliveredQueueFail ∨
      fail = BuildFailure.processedQueueFail then
    { providerReturned := false, nullDeref := false, mutexAlive := false,
      condAlive := false, queuesAlive := 0, providerAlive := false,
      bufferRefsAlive := 0, streamAlive := false }
  else
    let s := createStream fail
    if s.ret then
      { providerReturned := true, nullDeref := false, mutexAlive := true,
        condAlive := true, queuesAlive := 2, providerAlive := true,
        bufferRefsAlive := s.bufferRefsAlive, streamAlive := s.streamAlive }
    else
      { providerReturned := false, nullDeref := false, mutexAlive := false,
        condAlive := false, queuesAlive := 0, providerAlive := false,
        bufferRefsAlive := s.bufferRefsAlive, streamAlive := s.streamAlive }

end ImgProvider

namespace ImgProvider

/-- A non-empty delivered queue makes `getLastFrameBlocking` pop its tail
at once, regardless of the wait events: the while condition is false, so
`g_queue_pop_tail` runs directly. -/
lemma getLastFrameBlocking_concat (numAppFrames : Nat) (events : List WaitEvent)
    (older : List Nat) (b : Nat) (ps : List Nat) :
    getLastFrameBlocking numAppFrames events ⟨older ++ [b], ps⟩ =
      GetResult.got b ⟨older, ps⟩ := by
  rw [getLastFrameBlocking.eq_def]
  simp [List.getLast?_concat, List.dropLast_concat]

end ImgProvider

namespace ImgProvider

/-- C7: whenever the delivered queue is non-empty, `getLastFrameBlocking`
removes and returns its tail (the most recently delivered entry), leaving
every older entry and the whole processed queue in place; and in the
concrete blocking scenario where the consumer waits on an empty queue and
the fetch loop then delivers exactly frame 1 and signals, the call returns
frame 1 and the delivered queue becomes empty. -/
theorem c7_pop_tail_most_recent (numAppFrames : Nat) (events : List WaitEvent)
    (older : List Nat) (b : Nat) (ps : List Nat) :
    getLastFrameBlocking numAppFrames events ⟨older ++ [b], ps⟩ =
      GetResult.got b ⟨older, ps⟩ ∧
    getLastFrameBlocking 2 [WaitEvent.deliver 1] ⟨[], []⟩ =
      GetResult.got 1 ⟨[], []⟩ :=
  ⟨getLastFrameBlocking_concat numAppFrames events older b ps, by decide⟩

/-- C10: if the condition-variable wait fails while the delivered queue is
empty, `getLastFrameBlocking` jumps to `errorExit`, releases the mutex and
returns `NULL` (modelled `GetResult.failed`), leaving both queues exactly
as they were. -/
theorem c10_wait_failure_returns_null (numAppFrames : Nat)
    (events : List WaitEvent) (st : ProviderQueues)
    (hempty : st.deliveredFrames = []) :
    getLastFrameBlocking numAppFrames (WaitEvent.waitFail :: events) st =
      GetResult.failed st := by
  rw [getLastFrameBlocking.eq_def]
  simp [hempty]

/-- Witness for C10 at a concrete state with a non-empty processed queue. -/
theorem c10_wait_failure_returns_null_witness :
    getLastFrameBlocking 2 [WaitEvent.waitFail] ⟨[], [5]⟩ =
      GetResult.failed ⟨[], [5]⟩ :=
  c10_wait_failure_returns_null 2 [] ⟨[], [5]⟩ rfl

/-- C1 counterexample: frames 1 then 2 enter the delivered queue in fetch
order; with nothing delivered in between, the first `getLastFrameBlocking`
call returns frame 2 and the second call returns frame 1 — the
earlier-fetched, i.e. older, frame — so the second call DOES return a frame
older than the first, contrary to the claim. -/
theorem c1_second_call_returns_older :
    (fetchIteration 2 (fetchIteration 2 ⟨[], []⟩ 1).queues 2).queues =
      ⟨[1, 2], []⟩ ∧
    getLastFrameBlocking 2 [] ⟨[1, 2], []⟩ = GetResult.got 2 ⟨[1], []⟩ ∧
    getLastFrameBlocking 2 [] ⟨[1], []⟩ = GetResult.got 1 ⟨[], []⟩ := by
  decide

/-- C1 amended: with frames `older ++ [a, b]` in fetch order and nothing
delivered in between, the first call returns the newest frame `b` and the
second call returns `a`, the next-newest — an earlier-fetched frame, so the
second call can return an older frame than the first; but each dequeue is
destructive, so the same frame object is never returned twice (the two
results are distinct whenever the queue holds no duplicate handles). -/
theorem c1_destructive_but_not_monotonic (numAppFrames : Nat)
    (older : List Nat) (a b : Nat) (ps : List Nat)
    (hnodup : (older ++ [a, b]).Nodup) :
    getLastFrameBlocking numAppFrames [] ⟨older ++ [a, b], ps⟩ =
      GetResult.got b ⟨older ++ [a], ps⟩ ∧
    getLastFrameBlocking numAppFrames [] ⟨older ++ [a], ps⟩ =
      GetResult.got a ⟨older, ps⟩ ∧
    a ≠ b := by
  refine ⟨?_, getLastFrameBlocking_concat numAppFrames [] older a ps, ?_⟩
  · have h : older ++ [a, b] = (older ++ [a]) ++ [b] := by simp
    rw [h]
    exact getLastFrameBlocking_concat numAppFrames [] (older ++ [a]) b ps
  · have h2 := hnodup.of_append_right
    simp [List.nodup_cons] at h2
    exact h2

/-- Witness for C1's amended theorem at the queue [1, 2]. -/
theorem c1_destructive_but_not_monotonic_witness :
    getLastFrameBlocking 2 [] ⟨[1, 2], []⟩ = GetResult.got 2 ⟨[1], []⟩ ∧
    getLastFrameBlocking 2 [] ⟨[1], []⟩ = GetResult.got 1 ⟨[], []⟩ ∧
    (1 : Nat) ≠ 2 := by
  simpa using c1_destructive_but_not_monotonic 2 [] 1 2 [] (by decide)

/-- C4: in every fetch-loop iteration, after the new frame is appended to
the delivered queue, the buffer selected for recycling is the head of the
processed queue when that queue is non-empty — preferred even when the
delivered queue exceeds the watermark — otherwise the head of the delivered
queue exactly when its length (including the new frame) exceeds
`numAppFrames`, otherwise no buffer. -/
theorem c4_recycling_precedence (numAppFrames : Nat) (st : ProviderQueues)
    (newBuffer : Nat) :
    (fetchIteration numAppFrames st newBuffer).recycled =
      if st.processedFrames ≠ [] then st.processedFrames.head?
      else if (st.deliveredFrames ++ [newBuffer]).length > numAppFrames then
        (st.deliveredFrames ++ [newBuffer]).head?
      else none := by
  cases h : st.processedFrames with
  | nil =>
    simp [fetchIteration, h]
    split <;> rfl
  | cons p ps => simp [fetchIteration, h]

/-- C5: with `numAppFrames = 2`, an empty processed queue and no consumer
activity, after the fetch loop receives frames 1, 2, 3 in that order the
delivered queue holds exactly [2, 3], frame 1 has been recycled back to the
backend, and exactly one recycle-enqueue call has been issued. -/
theorem c5_watermark_scenario :
    SysState.run 2 (initState [1, 2, 3])
        [Op.fetch true, Op.fetch true, Op.fetch true] =
      { backend := [1], queues := ⟨[2, 3], []⟩, checkedOut := [],
        leaked := [], enqueueCalls := 1 } := by decide

/-- C2: contrary to the claim (and to the header documentation of
`chooseStreamResolution`), when the backend's resolution list is empty the
code returns success but stores the requested HEIGHT into `*chosenWidth` —
imgprovider.c:263-264 assigns `*chosenWidth` twice and never assigns
`*chosenHeight` on the fallback path, which therefore keeps its initial
value — and when the resolution query fails the function returns `false`
instead of falling back. -/
theorem c2_fallback_writes_height_into_width :
    chooseStreamResolution 640 480 (some []) 0 0 =
      { ret := true, chosenWidth := 480, chosenHeight := 0 } ∧
    chooseStreamResolution 640 480 none 0 0 =
      { ret := false, chosenWidth := 0, chosenHeight := 0 } := by decide

/-- C6: at the failing input where `vdo_stream_buffer_alloc` fails for
`vdoBuffers[1]`, the caller does receive `NULL`, but the already-allocated
buffer reference and the created stream object are NOT released:
`releaseVdoBuffers` returns early because `provider->vdoStream` is still
`NULL` on the error path, contradicting the `Clean up allocated buffers if
any` comment.  Additionally, when `calloc` fails the cleanup path
dereferences the `NULL` provider pointer. -/
theorem c6_partial_state_leak :
    createImgProvider (BuildFailure.bufferAllocFail 1) =
      { providerReturned := false, nullDeref := false, mutexAlive := false,
        condAlive := false, queuesAlive := 0, providerAlive := false,
        bufferRefsAlive := 1, streamAlive := true } ∧
    (createImgProvider BuildFailure.callocFail).nullDeref = true := by decide

end ImgProvider

namespace ImgProvider

/-- The fetch loop reports a shutdown exit exactly when some flag read in
its schedule was `true`. -/
lemma threadRun_shutdown_iff (numAppFrames : Nat) (schedule : List Bool) :
    ∀ st : SysState,
      ((threadRun numAppFrames schedule st).2.2 = LoopExit.shutdownObserved ↔
        true ∈ schedule) := by
  induction schedule with
  | nil => intro st; simp [threadRun]
  | cons shutDown rest ih =>
    intro st
    cases shutDown with
    | false => simpa [threadRun] using ih (st.step numAppFrames (Op.fetch true))
    | true => simp [threadRun]

/-- C9: the fetch loop terminates with a shutdown exit exactly when one of
the values it reads from the shutdown flag (at the top of an iteration,
before the blocking fetch call) is `true`; and the moment the flag is
observed `true`, the loop stops immediately: zero further
`vdo_stream_get_buffer` calls are issued and the system state — in
particular the delivered queue — is left unchanged. -/
theorem c9_cooperative_shutdown (numAppFrames : Nat) (schedule : List Bool)
    (st : SysState) :
    ((threadRun numAppFrames schedule st).2.2 = LoopExit.shutdownObserved ↔
      true ∈ schedule) ∧
    ∀ rest : List Bool,
      threadRun numAppFrames (true :: rest) st =
        (st, 0, LoopExit.shutdownObserved) := by
  refine ⟨threadRun_shutdown_iff numAppFrames schedule st, fun rest => ?_⟩
  simp [threadRun]

/-- One locked fetch-loop section conserves handle counts: the handles in
the resulting queues plus the recycled one are exactly the handles in the
starting queues plus the new buffer. -/
lemma fetchIteration_count (numAppFrames : Nat) (st : ProviderQueues)
    (newBuffer a : Nat) :
    ((fetchIteration numAppFrames st newBuffer).queues.deliveredFrames.count a +
      (fetchIteration numAppFrames st newBuffer).queues.processedFrames.count a) +
      ((fetchIteration numAppFrames st newBuffer).recycled.toList.count a) =
    (st.deliveredFrames.count a + st.processedFrames.count a) +
      ([newBuffer].count a) := by
  rcases hp : st.processedFrames with _ | ⟨p, ps⟩
  · simp only [fetchIteration, hp]
    split
    · rcases hd : st.deliveredFrames with _ | ⟨d, ds⟩ <;>
        (simp [List.count_append, List.count_cons]; try omega)
    · simp [List.count_append]
  · simp [fetchIteration, hp, List.count_append, List.count_cons]
    omega

/-- Counting occurrences shows one step with a successful (or absent)
recycle enqueue moves handles between the four conceptual states without
losing or duplicating any; the excluded `Op.fetch false` step is exactly
the one that drops a handle from these states. -/
lemma step_count_eq (numAppFrames : Nat) (st : SysState) (op : Op) (a : Nat)
    (hop : op ≠ Op.fetch false) :
    ((st.step numAppFrames op).allBufs).count a = st.allBufs.count a := by
  cases op with
  | fetch enqueueOk =>
    have hok : enqueueOk = true := by
      cases enqueueOk
      · exact absurd rfl hop
      · rfl
    subst hok
    rcases hb : st.backend with _ | ⟨newBuffer, backendRest⟩
    · simp [SysState.step, hb]
    · have h := fetchIteration_count numAppFrames st.queues newBuffer a
      rcases hr : (fetchIteration numAppFrames st.queues newBuffer).recycled
        with _ | old
      · rw [hr] at h
        simp only [SysState.step, hb, hr, SysState.allBufs, List.count_append,
          Option.toList_none, List.count_nil, List.count_cons] at h ⊢
        omega
      · rw [hr] at h
        simp only [SysState.step, hb, hr, SysState.allBufs, List.count_append,
          Option.toList_some, List.count_nil, List.count_cons, if_true] at h ⊢
        omega
  | getLast =>
    rcases hg : st.queues.deliveredFrames.getLast? with _ | buf
    · simp [SysState.step, hg]
    · rcases List.eq_nil_or_concat st.queues.deliveredFrames with hnil | ⟨l2, b2, hcat⟩
      · rw [hnil] at hg; simp at hg
      · rw [List.concat_eq_append] at hcat
        rw [hcat, List.getLast?_concat] at hg
        obtain rfl : b2 = buf := by injection hg
        simp only [SysState.step, hg, hcat, SysState.allBufs, List.count_append,
          List.dropLast_concat, List.getLast?_concat]
        omega
  | ret buffer =>
    by_cases hmem : buffer ∈ st.checkedOut
    · have hcount : 0 < st.checkedOut.count buffer := List.count_pos_iff.mpr hmem
      simp only [SysState.step, hmem, if_true, SysState.allBufs, returnFrame,
        List.count_append, List.count_erase]
      by_cases hab : buffer = a
      · subst hab; simp; omega
      · simp [hab, Ne.symm hab]
    · simp [SysState.step, hmem]

/-- Running any operation sequence whose recycle enqueues all succeed
permutes the combined handle list. -/
lemma run_allBufs_perm (numAppFrames : Nat) (ops : List Op) :
    ∀ st : SysState, Op.fetch false ∉ ops →
      ((SysState.run numAppFrames st ops).allBufs).Perm st.allBufs := by
  induction ops with
  | nil => intro st _; simp [SysState.run]
  | cons op rest ih =>
    intro st hok
    have hop : op ≠ Op.fetch false := fun heq => hok (heq ▸ List.mem_cons_self op rest)
    have hrest : Op.fetch false ∉ rest := fun hmem => hok (List.mem_cons_of_mem op hmem)
    have h1 : ((st.step numAppFrames op).allBufs).Perm st.allBufs :=
      List.perm_iff_count.mpr fun a => step_count_eq numAppFrames st op a hop
    exact (ih (st.step numAppFrames op) hrest).trans h1

/-- C8 counterexample: from the pool [1, 2, 3] with `numAppFrames = 2`,
two nominal fetches followed by one fetch whose recycle enqueue fails
(imgprovider.c:420-428, logged and not retried) leave handle 1 in NONE of
the four conceptual states — it was popped from the delivered queue but
the backend never accepted it back — so the multiset union over
backend/delivered/processed/checked-out no longer equals the pool: the
claimed invariant fails on the program's documented enqueue-failure path. -/
theorem c8_enqueue_failure_loses_handle :
    SysState.run 2 (initState [1, 2, 3])
        [Op.fetch true, Op.fetch true, Op.fetch false] =
      { backend := [], queues := ⟨[2, 3], []⟩, checkedOut := [],
        leaked := [1], enqueueCalls := 1 } ∧
    (SysState.run 2 (initState [1, 2, 3])
        [Op.fetch true, Op.fetch true, Op.fetch false]).allBufs.count 1 = 0 ∧
    ([1, 2, 3] : List Nat).count 1 = 1 := by decide

/-- C8 amended: for every sequence of fetch, get-latest and return
operations starting from the primed pool in which every recycle enqueue
back to the backend succeeds, the multiset of buffer handles across the
conceptual states — with the backend, delivered, processed, checked out —
equals the original buffer pool, so no handle is lost; and when the pool
has no duplicate handles, the combined list stays duplicate-free, so no
handle ever sits in two states at once.  A failed recycle enqueue instead
drops exactly the popped handle from these states (the accepted bounded
leak), as the counterexample shows. -/
theorem c8_buffer_conservation (numAppFrames : Nat) (pool : List Nat)
    (ops : List Op) (hok : Op.fetch false ∉ ops) :
    (((SysState.run numAppFrames (initState pool) ops).allBufs : Multiset Nat) =
      (pool : Multiset Nat)) ∧
    (pool.Nodup →
      ((SysState.run numAppFrames (initState pool) ops).allBufs).Nodup) := by
  have hperm :
      ((SysState.run numAppFrames (initState pool) ops).allBufs).Perm pool := by
    have h := run_allBufs_perm numAppFrames ops (initState pool) hok
    simpa [initState, SysState.allBufs] using h
  exact ⟨Multiset.coe_eq_coe.mpr hperm, fun hnd => hperm.nodup_iff.mpr hnd⟩

/-- Witness for C8 on the pool [1, 2, 3] with a fetch, a consumer
checkout, a return and another fetch, all recycle enqueues succeeding. -/
theorem c8_buffer_conservation_witness :
    (((SysState.run 2 (initState [1, 2, 3])
        [Op.fetch true, Op.getLast, Op.ret 1, Op.fetch true]).allBufs :
          Multiset Nat) =
      (([1, 2, 3] : List Nat) : Multiset Nat)) ∧
    ((SysState.run 2 (initState [1, 2, 3])
        [Op.fetch true, Op.getLast, Op.ret 1, Op.fetch true]).allBufs).Nodup := by
  have h := c8_buffer_conservation 2 [1, 2, 3]
    [Op.fetch true, Op.getLast, Op.ret 1, Op.fetch true] (by decide)
  exact ⟨h.1, h.2 (by decide)⟩

end ImgProvider

namespace ImgProvider

/-- The value the C variable `bestResolutionArea` holds alongside the
model's best candidate: `UINT_MAX` initially (`bestResolutionIdx == -1`),
the candidate's area afterwards. -/
def accArea : Option VdoResolution → Nat
  | none => UINT_MAX
  | some r => resArea r

/-- Unfolding of the Boolean fit test. -/
lemma fitsRequest_eq_true_iff (reqW reqH : Nat) (r : VdoResolution) :
    fitsRequest reqW reqH r = true ↔ reqW ≤ r.width ∧ reqH ≤ r.height := by
  simp [fitsRequest]

/-- Full characterization of the selection loop, for an accumulator whose
`bestResolutionArea` matches its candidate: when the loop ends on a
candidate, that candidate fits, comes from the scanned list or the initial
accumulator, and has minimal (32-bit) area among the fitting scanned
elements and the initial candidate; when the loop ends without a candidate,
there was no initial candidate and no scanned element fits.  The strict
`area < bestResolutionArea` comparison makes the hypothesis
`resArea < UINT_MAX` necessary for fitting elements. -/
lemma bestLoop_spec (reqW reqH : Nat) :
    ∀ (l : List VdoResolution) (best : Option VdoResolution),
      (∀ b, best = some b → fitsRequest reqW reqH b = true) →
      (∀ r ∈ l, fitsRequest reqW reqH r = true → resArea r < UINT_MAX) →
      ((∀ b, bestLoop reqW reqH l best (accArea best) = some b →
          fitsRequest reqW reqH b = true ∧
          (b ∈ l ∨ best = some b) ∧
          (∀ r ∈ l, fitsRequest reqW reqH r = true → resArea b ≤ resArea r) ∧
          (∀ b0, best = some b0 → resArea b ≤ resArea b0)) ∧
        (bestLoop reqW reqH l best (accArea best) = none →
          best = none ∧ ∀ r ∈ l, fitsRequest reqW reqH r = false)) := by
  intro l
  induction l with
  | nil =>
    intro best hbest hbound
    constructor
    · intro b hb
      simp only [bestLoop] at hb
      refine ⟨hbest b hb, Or.inr hb, ?_, ?_⟩
      · intro x hx
        exact absurd hx (List.not_mem_nil x)
      · intro b0 h0
        rw [h0] at hb
        injection hb with hb
        subst hb
        exact Nat.le_refl _
    · intro hb
      simp only [bestLoop] at hb
      exact ⟨hb, fun x hx => absurd hx (List.not_mem_nil x)⟩
  | cons r rest ih =>
    intro best hbest hbound
    have hboundRest : ∀ x ∈ rest, fitsRequest reqW reqH x = true →
        resArea x < UINT_MAX :=
      fun x hx => hbound x (List.mem_cons_of_mem r hx)
    by_cases hfit : fitsRequest reqW reqH r = true
    · by_cases harea : resArea r < accArea best
      · have heq : bestLoop reqW reqH (r :: rest) best (accArea best) =
            bestLoop reqW reqH rest (some r) (accArea (some r)) := by
          simp only [bestLoop]
          rw [if_pos hfit, if_pos harea]
          rfl
        have hbestR : ∀ b, (some r : Option VdoResolution) = some b →
            fitsRequest reqW reqH b = true := by
          intro b hb
          injection hb with hb
          rw [← hb]
          exact hfit
        have hrec := ih (some r) hbestR hboundRest
        rw [heq]
        constructor
        · intro b hb
          obtain ⟨hbfits, hbmem, hbmin, hbacc⟩ := hrec.1 b hb
          refine ⟨hbfits, ?_, ?_, ?_⟩
          · rcases hbmem with h1 | h1
            · exact Or.inl (List.mem_cons_of_mem r h1)
            · have h2 : b = r := by injection h1 with h1; exact h1.symm
              rw [h2]
              exact Or.inl (List.mem_cons_self r rest)
          · intro x hx hxfit
            rcases List.mem_cons.mp hx with rfl | hx2
            · exact hbacc x rfl
            · exact hbmin x hx2 hxfit
          · intro b0 h0
            have h2 : resArea r < resArea b0 := by
              rw [h0] at harea
              simpa [accArea] using harea
            have h3 : resArea b ≤ resArea r := hbacc r rfl
            omega
        · intro hb
          have h1 := (hrec.2 hb).1
          simp at h1
      · have heq : bestLoop reqW reqH (r :: rest) best (accArea best) =
            bestLoop reqW reqH rest best (accArea best) := by
          simp [bestLoop, hfit, harea]
        rw [heq]
        cases best with
        | none =>
          exact absurd (hbound r (List.mem_cons_self r rest) hfit)
            (by simpa [accArea] using harea)
        | some b0 =>
          have hops : resArea b0 ≤ resArea r :=
            Nat.not_lt.mp (by simpa [accArea] using harea)
          have hrec := ih (some b0) hbest hboundRest
          constructor
          · intro b hb
            obtain ⟨hbfits, hbmem, hbmin, hbacc⟩ := hrec.1 b hb
            refine ⟨hbfits, ?_, ?_, hbacc⟩
            · rcases hbmem with h1 | h1
              · exact Or.inl (List.mem_cons_of_mem r h1)
              · exact Or.inr h1
            · intro x hx hxfit
              rcases List.mem_cons.mp hx with rfl | hx2
              · have h3 : resArea b ≤ resArea b0 := hbacc b0 rfl
                omega
              · exact hbmin x hx2 hxfit
          · intro hb
            have h1 := (hrec.2 hb).1
            simp at h1
    · have hfitF : fitsRequest reqW reqH r = false := Bool.eq_false_iff.mpr hfit
      have heq : bestLoop reqW reqH (r :: rest) best (accArea best) =
          bestLoop reqW reqH rest best (accArea best) := by
        simp [bestLoop, hfitF]
      rw [heq]
      have hrec := ih best hbest hboundRest
      constructor
      · intro b hb
        obtain ⟨hbfits, hbmem, hbmin, hbacc⟩ := hrec.1 b hb
        refine ⟨hbfits, ?_, ?_, hbacc⟩
        · rcases hbmem with h1 | h1
          · exact Or.inl (List.mem_cons_of_mem r h1)
          · exact Or.inr h1
        · intro x hx hxfit
          rcases List.mem_cons.mp hx with rfl | hx2
          · rw [hfitF] at hxfit
            cases hxfit
          · exact hbmin x hx2 hxfit
      · intro hb
        obtain ⟨h1, h2⟩ := hrec.2 hb
        refine ⟨h1, fun x hx => ?_⟩
        rcases List.mem_cons.mp hx with rfl | hx2
        · exact hfitF
        · exact h2 x hx2

/-- C3 counterexample: the request (2, 1) fits inside the sole listed
resolution 4294967295 × 1, but that resolution's area equals `UINT_MAX`,
the initial value of `bestResolutionArea`, so the strict `area <
bestResolutionArea` comparison never accepts it; the code selects nothing
and falls back, returning a chosen width of 1 — smaller than the requested
width — instead of the fitting resolution. -/
theorem c3_uintmax_area_never_selected :
    fitsRequest 2 1 ⟨4294967295, 1⟩ = true ∧
    chooseStreamResolution 2 1 (some [⟨4294967295, 1⟩]) 0 0 =
      { ret := true, chosenWidth := 1, chosenHeight := 0 } := by decide

/-- C3 amended: for every resolution list in which every fitting
resolution's area is below `UINT_MAX` (so the 32-bit area arithmetic is
exact and beats the initial `bestResolutionArea`), if at least one listed
resolution fits the request then `chooseStreamResolution` succeeds and
returns a listed resolution that fits the request and has minimal true
area among all fitting listed resolutions; in particular both chosen
dimensions are at least the requested ones.  The selection is a pure
function of the list, hence deterministic. -/
theorem c3_smallest_fitting_resolution (reqW reqH : Nat)
    (resolutions : List VdoResolution) (initW initH : Nat)
    (hbound : ∀ r ∈ resolutions, reqW ≤ r.width → reqH ≤ r.height →
      r.width * r.height < UINT_MAX)
    (r0 : VdoResolution) (hr0 : r0 ∈ resolutions)
    (hfit0 : reqW ≤ r0.width ∧ reqH ≤ r0.height) :
    ∃ best ∈ resolutions,
      reqW ≤ best.width ∧ reqH ≤ best.height ∧
      (∀ r ∈ resolutions, reqW ≤ r.width → reqH ≤ r.height →
        best.width * best.height ≤ r.width * r.height) ∧
      chooseStreamResolution reqW reqH (some resolutions) initW initH =
        { ret := true, chosenWidth := best.width,
          chosenHeight := best.height } := by
  have harea : ∀ r : VdoResolution, r.width * r.height < UINT_MAX →
      resArea r = r.width * r.height := by
    intro r h
    have h2 : r.width * r.height < 2 ^ 32 :=
      lt_trans h (by norm_num [UINT_MAX])
    exact Nat.mod_eq_of_lt h2
  have hboundFit : ∀ r ∈ resolutions, fitsRequest reqW reqH r = true →
      resArea r < UINT_MAX := by
    intro r hr hf
    obtain ⟨h1, h2⟩ := (fitsRequest_eq_true_iff reqW reqH r).mp hf
    rw [harea r (hbound r hr h1 h2)]
    exact hbound r hr h1 h2
  have hspec := bestLoop_spec reqW reqH resolutions none
    (by intro b hb; simp at hb) hboundFit
  rcases hres : bestLoop reqW reqH resolutions none UINT_MAX with _ | best
  · have hres2 : bestLoop reqW reqH resolutions none (accArea none) = none := by
      simpa [accArea] using hres
    have hall := (hspec.2 hres2).2
    have hf0 : fitsRequest reqW reqH r0 = true := by
      simp [fitsRequest, hfit0.1, hfit0.2]
    rw [hall r0 hr0] at hf0
    cases hf0
  · have hres2 : bestLoop reqW reqH resolutions none (accArea none) =
        some best := by
      simpa [accArea] using hres
    obtain ⟨hbfits, hbmem, hbmin, _⟩ := hspec.1 best hres2
    have hbmem2 : best ∈ resolutions := by
      rcases hbmem with h | h
      · exact h
      · simp at h
    have hfits2 := (fitsRequest_eq_true_iff reqW reqH best).mp hbfits
    refine ⟨best, hbmem2, hfits2.1, hfits2.2, ?_, ?_⟩
    · intro r hr hw hh
      have hfr : fitsRequest reqW reqH r = true := by
        simp [fitsRequest, hw, hh]
      have hmin := hbmin r hr hfr
      rw [harea best (hbound best hbmem2 hfits2.1 hfits2.2),
        harea r (hbound r hr hw hh)] at hmin
      exact hmin
    · simp [chooseStreamResolution, hres]

/-- Witness for C3's amended theorem on a concrete resolution list with
request 640 × 480: the selected resolution is 640 × 480 itself. -/
theorem c3_smallest_fitting_resolution_witness :
    ∃ best ∈ ([⟨320, 240⟩, ⟨1280, 720⟩, ⟨640, 480⟩] : List VdoResolution),
      640 ≤ best.width ∧ 480 ≤ best.height ∧
      (∀ r ∈ ([⟨320, 240⟩, ⟨1280, 720⟩, ⟨640, 480⟩] : List VdoResolution),
        640 ≤ r.width → 480 ≤ r.height →
        best.width * best.height ≤ r.width * r.height) ∧
      chooseStreamResolution 640 480
          (some [⟨320, 240⟩, ⟨1280, 720⟩, ⟨640, 480⟩]) 0 0 =
        { ret := true, chosenWidth := best.width,
          chosenHeight := best.height } :=
  c3_smallest_fitting_resolution 640 480
    [⟨320, 240⟩, ⟨1280, 720⟩, ⟨640, 480⟩] 0 0 (by decide)
    ⟨640, 480⟩ (by decide) (by decide)

end ImgProvider
